import Mathlib

/-!
Verification of the hand-gesture recognition and control-signal pipeline of
the VibeCAD repository.  The definitions below are shallow embeddings of the
TypeScript sources:

  * frontend/src/components/GestureDetector.tsx        (feature extraction,
    gesture classification, orientation estimation; an older two-axis variant
    and a newer three-axis variant of the detector both exist in the tree)
  * frontend/src/hooks/useSmoothedGesture.ts           (temporal smoother)
  * frontend/src/components/controllers/GestureCameraController.tsx
    (rotation-axis disambiguator)

JavaScript numbers are modelled as exact rationals (for the purely arithmetic
state machines) or as real numbers (for the geometry that uses sqrt / atan2).
The JavaScript remainder operator, which truncates toward zero, is modelled
explicitly by jsMod.
-/

namespace VibeCAD

/-- The gesture alphabet of the detector: the GestureType union
"ZOOM OUT" | "ZOOM IN" | "UP" | "DOWN" | "LEFT" | "RIGHT" | "UNKNOWN". -/
inductive Gesture where
  | zoomOut
  | zoomIn
  | up
  | down
  | left
  | right
  | unknown
deriving DecidableEq, Repr

/-- A gesture is directional when it is one of UP, DOWN, LEFT, RIGHT. -/
def Gesture.isDirectional (g : Gesture) : Prop :=
  g = .up ∨ g = .down ∨ g = .left ∨ g = .right

/-- Truncation toward zero, as used by the JavaScript remainder operator. -/
def jsTrunc {α : Type} [LinearOrderedField α] [FloorRing α] (x : α) : α :=
  if 0 ≤ x then (⌊x⌋ : ℤ) else (⌈x⌉ : ℤ)

/-- JavaScript remainder a % n (sign follows the dividend a). -/
def jsMod {α : Type} [LinearOrderedField α] [FloorRing α] (a n : α) : α :=
  a - n * jsTrunc (a / n)

/-- Embedding of normalizeAngle from GestureDetector.tsx:
angle mapsto ((angle + 180) % 360) - 180 with the JavaScript remainder. -/
def normalizeAngle {α : Type} [LinearOrderedField α] [FloorRing α] (angle : α) : α :=
  jsMod (angle + 180) 360 - 180

/-- Embedding of the branch structure of detectDirection (GestureDetector.tsx)
as a function of the already-computed angle in degrees:
angle in [45,135] gives UP, in [-135,-45] gives DOWN, in (-45,45) gives RIGHT,
and the remaining else branch gives LEFT. -/
def directionFromAngle {α : Type} [LinearOrderedField α] (angle : α) : Gesture :=
  if 45 ≤ angle ∧ angle ≤ 135 then .up
  else if -135 ≤ angle ∧ angle ≤ -45 then .down
  else if -45 < angle ∧ angle < 45 then .right
  else .left

/-! ## Temporal smoother (useSmoothedGesture.ts) -/

/-- The persistent refs of useSmoothedGesture: lastGestureRef,
lastValidGestureRef, lastValidTimeRef (milliseconds), unknownCountRef and
sameGestureCountRef. -/
structure SmootherState where
  lastGesture : Gesture
  lastValidGesture : Gesture
  lastValidTime : ℤ
  unknownCount : ℕ
  sameGestureCount : ℕ
deriving DecidableEq, Repr

/-- One run of the gesture effect of useSmoothedGesture, given the raw gesture
of the frame and the current time (Date.now(), ms).  The second component is
the argument of the setSmoothedGesture call of that run, or none when the run
does not call it (this can only happen in the dead branch of the
sameGestureCount test, whose condition is always true). -/
def smootherGestureStep (st : SmootherState) (gesture : Gesture) (now : ℤ) :
    SmootherState × Option Gesture :=
  if gesture = .unknown then
    if st.lastValidGesture = .zoomIn ∨ st.lastValidGesture = .zoomOut then
      ({ st with unknownCount := st.unknownCount + 1, lastValidGesture := .unknown, sameGestureCount := 0 }, some .unknown)
    else if now - st.lastValidTime < 100 ∧ st.lastValidGesture ≠ .unknown then
      ({ st with unknownCount := st.unknownCount + 1 }, some st.lastValidGesture)
    else
      ({ st with unknownCount := st.unknownCount + 1, lastValidGesture := .unknown, sameGestureCount := 0 }, some .unknown)
  else
    if gesture = st.lastGesture then
      if 1 ≤ st.sameGestureCount + 1 then
        ({ st with unknownCount := 0, sameGestureCount := st.sameGestureCount + 1, lastValidGesture := gesture, lastValidTime := now, lastGesture := gesture }, some gesture)
      else
        ({ st with unknownCount := 0, sameGestureCount := st.sameGestureCount + 1, lastGesture := gesture }, none)
    else
      ({ st with unknownCount := 0, sameGestureCount := 1, lastValidGesture := gesture, lastValidTime := now, lastGesture := gesture }, some gesture)

/-- A raw per-axis orientation input as seen by the smoothing effects of
useSmoothedGesture: null, NaN, positive or negative Infinity, or a finite number. -/
inductive RawSample where
  | absent
  | nanVal
  | infVal
  | finite (x : ℚ)
deriving DecidableEq, Repr

/-- One run of a per-axis orientation smoothing effect of useSmoothedGesture:
if the raw value passes (v !== null && !isNaN(v) && isFinite(v)) then either
pass it through (first sample) or blend v * 0.7 + previous * 0.3; otherwise
reset the filtered value to null. -/
def smoothAxisStep (prev : Option ℚ) (raw : RawSample) : Option ℚ :=
  match raw with
  | .finite x =>
    match prev with
    | none => some x
    | some p => some (x * 0.7 + p * 0.3)
  | _ => none

/-! ## Rotation-axis disambiguator (GestureCameraController.tsx) -/

/-- The three candidate rotation axes of the disambiguator. -/
inductive Axis where
  | pitch
  | yaw
  | roll
deriving DecidableEq, Repr

/-- THREE.MathUtils.clamp: Math.max(lo, Math.min(hi, value)). -/
def clampValue (value lo hi : ℚ) : ℚ :=
  max lo (min hi value)

/-- The axis-selection chain of GestureCameraController (identical in
GestureObjectController): dead zones 2.5 / 3.5 / 3.0 and dominance margins
1.3x for pitch, 1.4x and 1.8x for yaw, 1.4x and 1.6x for roll, evaluated on
the per-axis deltas of the frame.  Returns the rotationAxis variable, none
when shouldRotate stays false. -/
def selectRotationAxis (pitchDelta yawDelta rollDelta : ℚ) : Option Axis :=
  if |pitchDelta| = max |pitchDelta| (max |yawDelta| |rollDelta|) ∧ |pitchDelta| > 2.5 then
    if |pitchDelta| > |yawDelta| * 1.3 ∧ |pitchDelta| > |rollDelta| * 1.3 then some .pitch else none
  else if |yawDelta| = max |pitchDelta| (max |yawDelta| |rollDelta|) ∧ |yawDelta| > 3.5 then
    if |yawDelta| > |pitchDelta| * 1.4 ∧ |yawDelta| > |rollDelta| * 1.8 then some .yaw else none
  else if |rollDelta| = max |pitchDelta| (max |yawDelta| |rollDelta|) ∧ |rollDelta| > 3.0 then
    if |rollDelta| > |pitchDelta| * 1.4 ∧ |rollDelta| > |yawDelta| * 1.6 then some .roll else none
  else none

/-- Tests whether the gesture takes the priority-1 early-return branch of the
camera controller (pan and zoom handling). -/
def isMovementGesture (g : Gesture) : Prop :=
  g = .up ∨ g = .down ∨ g = .left ∨ g = .right ∨ g = .zoomIn ∨ g = .zoomOut

instance (g : Gesture) : Decidable (isMovementGesture g) := by
  unfold isMovementGesture; infer_instance

/-- One useFrame run of GestureCameraController with resetCamera = false,
restricted to the state it owns: the state is the triple of
lastPitchRef/lastYawRef/lastRollRef (all set and cleared together), the
second component is the rotation command applied to the camera this frame
(winning axis together with the delta clamped to [-15, 15]; the controller
then scales the clamped delta by 0.9 and converts to radians when building
the quaternion, which is rendering-side and not modelled). -/
def controllerStep (st : Option (ℚ × ℚ × ℚ)) (gesture : Gesture)
    (rotationEnabled isFistClosed : Bool)
    (pitch yaw roll : Option ℚ) : Option (ℚ × ℚ × ℚ) × Option (Axis × ℚ) :=
  if isMovementGesture gesture then
    (none, none)
  else
    match pitch, yaw, roll with
    | some p, some y, some r =>
      if rotationEnabled && isFistClosed then
        (some (p, y, r),
          match st with
          | some (lp, ly, lr) =>
            (match selectRotationAxis (p - lp) (y - ly) (r - lr) with
             | some .pitch => some (.pitch, clampValue (p - lp) (-15) 15)
             | some .yaw => some (.yaw, clampValue (y - ly) (-15) 15)
             | some .roll => some (.roll, clampValue (r - lr) (-15) 15)
             | none => none)
          | none => none)
      else (none, none)
    | _, _, _ => (none, none)

/-! ## Arithmetic facts about the JavaScript remainder -/

lemma jsTrunc_eq_zero {α : Type} [LinearOrderedField α] [FloorRing α] {x : α}
    (h1 : -1 < x) (h2 : x < 1) : jsTrunc x = 0 := by
  unfold jsTrunc
  split_ifs with h
  · have : ⌊x⌋ = 0 := Int.floor_eq_zero_iff.mpr (Set.mem_Ico.mpr ⟨h, h2⟩)
    rw [this]; norm_num
  · have : ⌈x⌉ = 0 := Int.ceil_eq_zero_iff.mpr (Set.mem_Ioc.mpr ⟨h1, le_of_not_le h⟩)
    rw [this]; norm_num

lemma jsMod_small {α : Type} [LinearOrderedField α] [FloorRing α] {a n : α}
    (hn : 0 < n) (h1 : -n < a) (h2 : a < n) : jsMod a n = a := by
  have h3 : -1 < a / n := by
    rw [lt_div_iff₀ hn]; linarith
  have h4 : a / n < 1 := (div_lt_one hn).mpr h2
  unfold jsMod
  rw [jsTrunc_eq_zero h3 h4]; ring

lemma jsMod_bounds {α : Type} [LinearOrderedField α] [FloorRing α]
    {n : α} (hn : 0 < n) (a : α) : -n < jsMod a n ∧ jsMod a n < n := by
  have hmul : n * (a / n) = a := by field_simp
  unfold jsMod jsTrunc
  split_ifs with ht
  · have h1 := Int.floor_le (a / n)
    have h2 := Int.lt_floor_add_one (a / n)
    constructor <;> nlinarith
  · have h1 := Int.le_ceil (a / n)
    have h2 := Int.ceil_lt_add_one (a / n)
    constructor <;> nlinarith

lemma jsMod_nonneg {α : Type} [LinearOrderedField α] [FloorRing α]
    {a n : α} (hn : 0 < n) (ha : 0 ≤ a) : 0 ≤ jsMod a n := by
  have hmul : n * (a / n) = a := by field_simp
  have ht : 0 ≤ a / n := div_nonneg ha hn.le
  have h1 := Int.floor_le (a / n)
  unfold jsMod jsTrunc
  rw [if_pos ht]
  nlinarith

/-! ## Claim theorems: angle normalization (C2) -/

/-- C2 counterexample: the claim says the output of normalizeAngle always lies
in the half-open interval (-180, 180], but normalizeAngle 180 = -180, which is
not greater than -180. -/
theorem c2_normalize_range_counterexample :
    normalizeAngle (180 : ℚ) = -180 ∧ ¬(-180 < normalizeAngle (180 : ℚ)) := by
  have h : normalizeAngle (180 : ℚ) = -180 := by
    unfold normalizeAngle jsMod jsTrunc
    rw [if_pos (show (0 : ℚ) ≤ (180 + 180) / 360 from by norm_num)]
    rw [show ((180 : ℚ) + 180) / 360 = 1 from by norm_num]
    norm_num
  exact ⟨h, by rw [h]; norm_num⟩

/-- C2 (amended): normalizeAngle is idempotent for every rational input, and
for inputs x with -180 <= x its output lies in the half-open interval
[-180, 180) (the claimed interval (-180, 180] is wrong at the boundary: 180 is
mapped to -180, and inputs below -180 are returned with values below -180). -/
theorem c2_normalize_idempotent_range (x : ℚ) :
    normalizeAngle (normalizeAngle x) = normalizeAngle x ∧
    (-180 ≤ x → -180 ≤ normalizeAngle x ∧ normalizeAngle x < 180) := by
  have h360 : (0 : ℚ) < 360 := by norm_num
  have hb := jsMod_bounds h360 (x + 180)
  constructor
  · unfold normalizeAngle
    rw [show jsMod (x + 180) 360 - 180 + 180 = jsMod (x + 180) 360 from by ring]
    rw [jsMod_small h360 hb.1 hb.2]
  · intro hx
    have hnn := jsMod_nonneg h360 (show (0 : ℚ) ≤ x + 180 from by linarith)
    unfold normalizeAngle
    constructor <;> linarith [hb.2]

/-- C2 witness: the amended theorem evaluated at the concrete input 200. -/
theorem c2_normalize_witness :
    normalizeAngle (normalizeAngle (200 : ℚ)) = normalizeAngle 200 ∧
    (-180 ≤ normalizeAngle (200 : ℚ) ∧ normalizeAngle (200 : ℚ) < 180) :=
  ⟨(c2_normalize_idempotent_range 200).1,
   (c2_normalize_idempotent_range 200).2 (by norm_num)⟩

/-! ## Claim theorems: direction classification (C1) -/

/-- C1: for every angle in [-180, 180] the direction classifier returns UP
exactly on [45, 135], DOWN exactly on [-135, -45], RIGHT exactly on (-45, 45),
LEFT exactly on the remaining angles, and always one of the four: the four
ranges partition the circle with no gap and no double coverage at the
boundary angles. -/
theorem c1_direction_partition (θ : ℚ) (_h1 : -180 ≤ θ) (_h2 : θ ≤ 180) :
    (directionFromAngle θ = .up ↔ 45 ≤ θ ∧ θ ≤ 135) ∧
    (directionFromAngle θ = .down ↔ -135 ≤ θ ∧ θ ≤ -45) ∧
    (directionFromAngle θ = .right ↔ -45 < θ ∧ θ < 45) ∧
    (directionFromAngle θ = .left ↔ (θ < -135 ∨ 135 < θ)) ∧
    (directionFromAngle θ = .up ∨ directionFromAngle θ = .down ∨
     directionFromAngle θ = .right ∨ directionFromAngle θ = .left) := by
  unfold directionFromAngle
  split_ifs with hu hd hr
  · refine ⟨⟨fun _ => hu, fun _ => rfl⟩, ?_, ?_, ?_, Or.inl rfl⟩
    · exact ⟨fun h => absurd h (by decide), fun h => by exfalso; linarith [hu.1, h.2]⟩
    · exact ⟨fun h => absurd h (by decide), fun h => by exfalso; linarith [hu.1, h.2]⟩
    · refine ⟨fun h => absurd h (by decide), fun h => ?_⟩
      rcases h with h | h
      · exfalso; linarith [hu.1]
      · exfalso; linarith [hu.2]
  · refine ⟨⟨fun h => absurd h (by decide), fun h => absurd h hu⟩, ⟨fun _ => hd, fun _ => rfl⟩, ?_, ?_,
      Or.inr (Or.inl rfl)⟩
    · exact ⟨fun h => absurd h (by decide), fun h => by exfalso; linarith [hd.2, h.1]⟩
    · refine ⟨fun h => absurd h (by decide), fun h => ?_⟩
      rcases h with h | h
      · exfalso; linarith [hd.1]
      · exfalso; linarith [hd.2]
  · refine ⟨⟨fun h => absurd h (by decide), fun h => absurd h hu⟩,
      ⟨fun h => absurd h (by decide), fun h => absurd h hd⟩, ⟨fun _ => hr, fun _ => rfl⟩, ?_,
      Or.inr (Or.inr (Or.inl rfl))⟩
    refine ⟨fun h => absurd h (by decide), fun h => ?_⟩
    rcases h with h | h
    · exfalso; linarith [hr.1]
    · exfalso; linarith [hr.2]
  · push_neg at hu hd hr
    have hleft : θ < -135 ∨ 135 < θ := by
      by_cases hc : θ < -135
      · exact Or.inl hc
      · push_neg at hc
        have h45 : -45 < θ := hd hc
        have h45' : 45 ≤ θ := hr h45
        exact Or.inr (hu h45')
    refine ⟨⟨fun h => absurd h (by decide), fun h => ?_⟩, ⟨fun h => absurd h (by decide), fun h => ?_⟩,
      ⟨fun h => absurd h (by decide), fun h => ?_⟩, ⟨fun _ => hleft, fun _ => rfl⟩,
      Or.inr (Or.inr (Or.inr rfl))⟩
    · rcases hleft with hl | hl
      · exfalso; linarith [h.1]
      · exfalso; linarith [h.2]
    · rcases hleft with hl | hl
      · exfalso; linarith [h.1]
      · exfalso; linarith [h.2]
    · rcases hleft with hl | hl
      · exfalso; linarith [h.1]
      · exfalso; linarith [h.2]

/-- C1 witness: boundary angle 45 classifies as UP and angle 136 as LEFT. -/
theorem c1_direction_witness :
    directionFromAngle (45 : ℚ) = .up ∧ directionFromAngle (136 : ℚ) = .left :=
  ⟨((c1_direction_partition 45 (by norm_num) (by norm_num)).1).mpr (by norm_num),
   ((c1_direction_partition 136 (by norm_num) (by norm_num)).2.2.2.1).mpr
     (Or.inr (by norm_num))⟩

/-! ## Claim theorems: temporal smoother (C4, C5) -/

/-- C4: on a raw Unknown input, if the last accepted gesture was a zoom
gesture the smoother emits Unknown on that same frame; if it was a
directional gesture, the smoother keeps emitting it while strictly less than
100 ms have elapsed since the last valid frame and emits Unknown once 100 ms
have passed. -/
theorem c4_smoother_unknown_handling (st : SmootherState) (now : ℤ) :
    ((st.lastValidGesture = .zoomIn ∨ st.lastValidGesture = .zoomOut) →
      (smootherGestureStep st .unknown now).2 = some .unknown) ∧
    (st.lastValidGesture.isDirectional →
      ((now - st.lastValidTime < 100 →
         (smootherGestureStep st .unknown now).2 = some st.lastValidGesture) ∧
       (100 ≤ now - st.lastValidTime →
         (smootherGestureStep st .unknown now).2 = some .unknown))) := by
  constructor
  · intro hz
    unfold smootherGestureStep
    rw [if_pos rfl, if_pos hz]
  · intro hdir
    have hz : ¬(st.lastValidGesture = .zoomIn ∨ st.lastValidGesture = .zoomOut) := by
      rcases hdir with h | h | h | h <;> rw [h] <;> decide
    have hne : st.lastValidGesture ≠ .unknown := by
      rcases hdir with h | h | h | h <;> rw [h] <;> decide
    constructor
    · intro ht
      unfold smootherGestureStep
      rw [if_pos rfl, if_neg hz, if_pos ⟨ht, hne⟩]
    · intro ht
      unfold smootherGestureStep
      rw [if_pos rfl, if_neg hz, if_neg (by intro hc; linarith [hc.1])]

/-- C4 witness: concrete smoother states: a last accepted ZoomIn clears at
once; a last accepted Up survives an Unknown at 50 ms and clears at 200 ms. -/
theorem c4_smoother_witness :
    (smootherGestureStep ⟨.zoomIn, .zoomIn, 0, 0, 1⟩ .unknown 50).2 = some .unknown ∧
    (smootherGestureStep ⟨.up, .up, 0, 0, 1⟩ .unknown 50).2 = some .up ∧
    (smootherGestureStep ⟨.up, .up, 0, 0, 1⟩ .unknown 200).2 = some .unknown :=
  ⟨(c4_smoother_unknown_handling ⟨.zoomIn, .zoomIn, 0, 0, 1⟩ 50).1 (Or.inl rfl),
   ((c4_smoother_unknown_handling ⟨.up, .up, 0, 0, 1⟩ 50).2 (Or.inl rfl)).1 (by norm_num),
   ((c4_smoother_unknown_handling ⟨.up, .up, 0, 0, 1⟩ 200).2 (Or.inl rfl)).2 (by norm_num)⟩

/-- C5: the per-axis orientation filter step maps null, NaN and infinite raw
values to null on the same frame, passes a finite raw value through when the
previous filtered value is null, and otherwise blends raw * 0.7 with the
previous filtered value * 0.3. -/
theorem c5_orientation_filter_step :
    (∀ prev, smoothAxisStep prev .absent = none ∧
      smoothAxisStep prev .nanVal = none ∧ smoothAxisStep prev .infVal = none) ∧
    (∀ x, smoothAxisStep none (.finite x) = some x) ∧
    (∀ x p, smoothAxisStep (some p) (.finite x) = some (x * 0.7 + p * 0.3)) :=
  ⟨fun _ => ⟨rfl, rfl, rfl⟩, fun _ => rfl, fun _ _ => rfl⟩

/-! ## Claim theorems: rotation-axis disambiguator (C3, C6, C9) -/

/-- The per-axis condition the spec states for an emitted axis: largest
absolute delta, above its dead zone, and dominant over the other two axes by
the fixed margins. -/
def axisDominance (a : Axis) (pd yd rd : ℚ) : Prop :=
  match a with
  | .pitch => |pd| = max |pd| (max |yd| |rd|) ∧ |pd| > 2.5 ∧
      |pd| > |yd| * 1.3 ∧ |pd| > |rd| * 1.3
  | .yaw => |yd| = max |pd| (max |yd| |rd|) ∧ |yd| > 3.5 ∧
      |yd| > |pd| * 1.4 ∧ |yd| > |rd| * 1.8
  | .roll => |rd| = max |pd| (max |yd| |rd|) ∧ |rd| > 3.0 ∧
      |rd| > |pd| * 1.4 ∧ |rd| > |yd| * 1.6

lemma selectRotationAxis_eq_some (pd yd rd : ℚ) (a : Axis)
    (h : selectRotationAxis pd yd rd = some a) : axisDominance a pd yd rd := by
  unfold selectRotationAxis at h
  unfold axisDominance
  split_ifs at h with g1 g2 g3 g4 <;>
    first
      | exact Option.noConfusion h
      | (rcases Option.some.inj h with rfl
         exact ⟨by tauto, by tauto, by tauto, by tauto⟩)

/-- Unfolding of controllerStep when the previous sample and all three
current samples exist. -/
lemma controllerStep_eval (lp ly lr p y r : ℚ) (g : Gesture) (re fc : Bool) :
    controllerStep (some (lp, ly, lr)) g re fc (some p) (some y) (some r) =
    if isMovementGesture g then (none, none)
    else if re && fc then
      (some (p, y, r),
        match selectRotationAxis (p - lp) (y - ly) (r - lr) with
        | some .pitch => some (.pitch, clampValue (p - lp) (-15) 15)
        | some .yaw => some (.yaw, clampValue (y - ly) (-15) 15)
        | some .roll => some (.roll, clampValue (r - lr) (-15) 15)
        | none => none)
    else (none, none) := rfl

/-- C3: whenever the controller frame emits a rotation (this requires both
the current and the previous smoothed samples to exist), the emitted axis is
unique (the command carries one axis), its absolute delta equals the maximum
of the three absolute deltas, it exceeds its dead zone (pitch 2.5, yaw 3.5,
roll 3.0), and it dominates the other two axes by the fixed margins: 1.3x for
pitch over both, 1.4x and 1.8x for yaw over pitch and roll, 1.4x and 1.6x for
roll over pitch and yaw.  Contrapositively, when no axis meets its dead zone
and margins, no rotation is emitted that frame. -/
theorem c3_axis_dominance (lp ly lr p y r : ℚ) (g : Gesture) (re fc : Bool)
    (a : Axis) (d : ℚ)
    (h : (controllerStep (some (lp, ly, lr)) g re fc
            (some p) (some y) (some r)).2 = some (a, d)) :
    axisDominance a (p - lp) (y - ly) (r - lr) := by
  rw [controllerStep_eval] at h
  by_cases hmv : isMovementGesture g
  · rw [if_pos hmv] at h
    exact Option.noConfusion h
  · rw [if_neg hmv] at h
    by_cases hrot : (re && fc) = true
    · rw [if_pos hrot] at h
      rcases hsel : selectRotationAxis (p - lp) (y - ly) (r - lr) with _ | ax
      · rw [hsel] at h
        exact Option.noConfusion h
      · rw [hsel] at h
        cases ax <;> cases Option.some.inj h <;>
          exact selectRotationAxis_eq_some _ _ _ _ hsel
    · rw [if_neg hrot] at h
      exact Option.noConfusion h

lemma selectRotationAxis_pitch_demo :
    selectRotationAxis 10 0 0 = some .pitch := by
  have h10 : |(10 : ℚ)| = 10 := abs_of_nonneg (by norm_num)
  unfold selectRotationAxis
  rw [if_pos ⟨by rw [h10, abs_zero, max_self, max_eq_left (by norm_num)],
        by rw [h10]; norm_num⟩,
      if_pos ⟨by rw [h10, abs_zero]; norm_num, by rw [h10, abs_zero]; norm_num⟩]

/-- C3 witness: with previous sample (0,0,0) and current pitch 10, yaw 0,
roll 0 the controller emits the pitch axis and the dominance facts hold. -/
theorem c3_axis_dominance_witness :
    axisDominance .pitch ((10 : ℚ) - 0) ((0 : ℚ) - 0) ((0 : ℚ) - 0) :=
  c3_axis_dominance 0 0 0 10 0 0 .unknown true true .pitch
    (clampValue (10 - 0) (-15) 15) (by
      rw [controllerStep_eval,
        if_neg (by decide : ¬ isMovementGesture Gesture.unknown),
        if_pos (by decide : (true && true) = true),
        show (10 : ℚ) - 0 = 10 from by norm_num,
        show (0 : ℚ) - 0 = 0 from by norm_num,
        selectRotationAxis_pitch_demo])

lemma selectRotationAxis_pitch_solo (v : ℚ) (hv : (2.5 : ℚ) < v) :
    selectRotationAxis v 0 0 = some .pitch := by
  have hva : |v| = v := abs_of_nonneg (by linarith)
  unfold selectRotationAxis
  rw [if_pos ⟨by rw [hva, abs_zero, max_self, max_eq_left (by linarith)],
        by rw [hva]; exact hv⟩,
      if_pos ⟨by rw [hva, abs_zero]; linarith, by rw [hva, abs_zero]; linarith⟩]

lemma clampValue_neg15_15 (v : ℚ) :
    -15 ≤ clampValue v (-15) 15 ∧ clampValue v (-15) 15 ≤ 15 :=
  ⟨le_max_left _ _, max_le (by norm_num) (min_le_left _ _)⟩

lemma controllerStep_p_none (st : Option (ℚ × ℚ × ℚ)) (g : Gesture)
    (re fc : Bool) (y r : Option ℚ) :
    controllerStep st g re fc none y r = (none, none) := by
  unfold controllerStep
  split_ifs <;> rfl

lemma controllerStep_y_none (st : Option (ℚ × ℚ × ℚ)) (g : Gesture)
    (re fc : Bool) (p r : Option ℚ) :
    controllerStep st g re fc p none r = (none, none) := by
  unfold controllerStep
  split_ifs <;> rcases p with _ | pv <;> rfl

lemma controllerStep_r_none (st : Option (ℚ × ℚ × ℚ)) (g : Gesture)
    (re fc : Bool) (p y : Option ℚ) :
    controllerStep st g re fc p y none = (none, none) := by
  unfold controllerStep
  split_ifs <;> rcases p with _ | pv <;> rcases y with _ | yv <;> rfl

/-- Unfolding of controllerStep when all three current samples exist but the
previous sample is missing. -/
lemma controllerStep_eval_noprev (p y r : ℚ) (g : Gesture) (re fc : Bool) :
    controllerStep none g re fc (some p) (some y) (some r) =
    if isMovementGesture g then (none, none)
    else if re && fc then (some (p, y, r), none)
    else (none, none) := rfl

/-- C9: any rotation command the controller emits carries a delta that was
clamped into [-15, 15], so one noisy spike never yields a per-frame rotation
command of magnitude above 15 degrees. -/
theorem c9_rotation_clamped (st : Option (ℚ × ℚ × ℚ)) (g : Gesture)
    (re fc : Bool) (p y r : Option ℚ) (a : Axis) (d : ℚ)
    (h : (controllerStep st g re fc p y r).2 = some (a, d)) :
    -15 ≤ d ∧ d ≤ 15 := by
  rcases p with _ | pv
  · rw [controllerStep_p_none] at h
    exact Option.noConfusion h
  rcases y with _ | yv
  · rw [controllerStep_y_none] at h
    exact Option.noConfusion h
  rcases r with _ | rv
  · rw [controllerStep_r_none] at h
    exact Option.noConfusion h
  rcases st with _ | ⟨lp, ly, lr⟩
  · rw [controllerStep_eval_noprev] at h
    split_ifs at h
  · rw [controllerStep_eval] at h
    by_cases hmv : isMovementGesture g
    · rw [if_pos hmv] at h
      exact Option.noConfusion h
    · rw [if_neg hmv] at h
      by_cases hrot : (re && fc) = true
      · rw [if_pos hrot] at h
        rcases hsel : selectRotationAxis (pv - lp) (yv - ly) (rv - lr) with _ | ax
        · rw [hsel] at h
          exact Option.noConfusion h
        · rw [hsel] at h
          cases ax <;> cases Option.some.inj h <;> exact clampValue_neg15_15 _
      · rw [if_neg hrot] at h
        exact Option.noConfusion h

/-- C9 witness: a 100-degree pitch spike between consecutive samples emits a
command whose delta is clamped into [-15, 15]. -/
theorem c9_rotation_clamped_witness :
    -15 ≤ clampValue (100 : ℚ) (-15) 15 ∧ clampValue (100 : ℚ) (-15) 15 ≤ 15 :=
  c9_rotation_clamped (some (0, 0, 0)) .unknown true true
    (some 100) (some 0) (some 0) .pitch (clampValue 100 (-15) 15) (by
      rw [controllerStep_eval,
        if_neg (by decide : ¬ isMovementGesture Gesture.unknown),
        if_pos (by decide : (true && true) = true),
        show (100 : ℚ) - 0 = 100 from by norm_num,
        show (0 : ℚ) - 0 = 0 from by norm_num,
        selectRotationAxis_pitch_solo 100 (by norm_num)])

/-- C6: whenever the fist-closed flag is false in a frame, or any smoothed
orientation component is null, the controller clears its per-axis last-sample
memory; and whenever that memory is empty (the first frame after the fist
closes again), no rotation command is emitted, whatever the orientation
difference accumulated across the gap. -/
theorem c6_memory_reset (g : Gesture) (re fc : Bool) (p y r : Option ℚ) :
    (∀ st, (fc = false ∨ p = none ∨ y = none ∨ r = none) →
      (controllerStep st g re fc p y r).1 = none) ∧
    (controllerStep none g re fc p y r).2 = none := by
  constructor
  · intro st hcond
    rcases p with _ | pv
    · rw [controllerStep_p_none]
    rcases y with _ | yv
    · rw [controllerStep_y_none]
    rcases r with _ | rv
    · rw [controllerStep_r_none]
    rcases hcond with hfc | hn | hn | hn
    · rcases st with _ | ⟨lp, ly, lr⟩
      · rw [controllerStep_eval_noprev, hfc]
        split_ifs with hmv hrot
        · rfl
        · exact absurd hrot (by simp)
        · rfl
      · rw [controllerStep_eval, hfc]
        split_ifs with hmv hrot
        · rfl
        · exact absurd hrot (by simp)
        · rfl
    · exact Option.noConfusion hn
    · exact Option.noConfusion hn
    · exact Option.noConfusion hn
  · rcases p with _ | pv
    · rw [controllerStep_p_none]
    rcases y with _ | yv
    · rw [controllerStep_y_none]
    rcases r with _ | rv
    · rw [controllerStep_r_none]
    rw [controllerStep_eval_noprev]
    split_ifs <;> rfl

/-- C6 witness: the scenario of the spec: a fist-closed frame establishes a
baseline, an open-hand frame clears the memory, and the re-closing frame with
a 40-degree yaw difference emits no rotation command. -/
theorem c6_memory_reset_witness :
    (controllerStep (some (0, 0, 0)) .unknown true false none none none).1 = none ∧
    (controllerStep none .unknown true true (some 0) (some 40) (some 0)).2 = none :=
  ⟨(c6_memory_reset .unknown true false none none none).1
      (some (0, 0, 0)) (Or.inl rfl),
   (c6_memory_reset .unknown true true (some 0) (some 40) (some 0)).2⟩

/-! ## Geometry over the reals (GestureDetector feature extraction) -/

noncomputable section

/-- One MediaPipe landmark: x, y in normalized image coordinates and z the
relative depth (the code reads landmark.z || 0, so z is always a number in
the computations). -/
structure Landmark where
  x : ℝ
  y : ℝ
  z : ℝ

/-- A HandPose: the 21 landmarks of one processed frame. -/
def HandPose : Type := Fin 21 → Landmark

/-- Math.atan2(y, x) in radians (the sign of floating-point zero is not
modelled; atan2(0, 0) = 0). -/
def atan2 (y x : ℝ) : ℝ :=
  if 0 < x then Real.arctan (y / x)
  else if x < 0 ∧ 0 ≤ y then Real.arctan (y / x) + Real.pi
  else if x < 0 ∧ y < 0 then Real.arctan (y / x) - Real.pi
  else if x = 0 ∧ 0 < y then Real.pi / 2
  else if x = 0 ∧ y < 0 then -(Real.pi / 2)
  else 0

/-- Conversion of radians to degrees: r * 180 / Math.PI. -/
def degOf (r : ℝ) : ℝ := r * 180 / Real.pi

/-- distance: 2D Euclidean distance of two landmarks (depth ignored). -/
def distance (p1 p2 : Landmark) : ℝ :=
  Real.sqrt ((p1.x - p2.x) ^ 2 + (p1.y - p2.y) ^ 2)

/-- crossProduct of two 3D vectors, components exactly as in the code. -/
def crossProduct (v1 v2 : ℝ × ℝ × ℝ) : ℝ × ℝ × ℝ :=
  (v1.2.1 * v2.2.2 - v1.2.2 * v2.2.1,
   v1.2.2 * v2.1 - v1.1 * v2.2.2,
   v1.1 * v2.2.1 - v1.2.1 * v2.1)

/-- normalize3D: each component divided by (norm + 1e-6), the epsilon guard
against division by zero on degenerate vectors. -/
def normalize3D (v : ℝ × ℝ × ℝ) : ℝ × ℝ × ℝ :=
  (v.1 / (Real.sqrt (v.1 ^ 2 + v.2.1 ^ 2 + v.2.2 ^ 2) + 1e-6),
   v.2.1 / (Real.sqrt (v.1 ^ 2 + v.2.1 ^ 2 + v.2.2 ^ 2) + 1e-6),
   v.2.2 / (Real.sqrt (v.1 ^ 2 + v.2.1 ^ 2 + v.2.2 ^ 2) + 1e-6))

/-- isFingerExtended: cosine similarity of the vectors MCP to PIP and PIP to
TIP (2D) exceeds the threshold; 0.7 at every call site. -/
def isFingerExtended (tip pip mcp : Landmark) (threshold : ℝ) : Prop :=
  ((pip.x - mcp.x) * (tip.x - pip.x) + (pip.y - mcp.y) * (tip.y - pip.y)) /
    (Real.sqrt ((pip.x - mcp.x) ^ 2 + (pip.y - mcp.y) ^ 2) *
       Real.sqrt ((tip.x - pip.x) ^ 2 + (tip.y - pip.y) ^ 2) + 1e-6) >
    threshold

instance (tip pip mcp : Landmark) (threshold : ℝ) :
    Decidable (isFingerExtended tip pip mcp threshold) := by
  unfold isFingerExtended; infer_instance

/-- fingersUp: the finger states [index, middle, ring, pinky] as 1 or 0, the
loop over tips [8,12,16,20], pips [6,10,14,18], mcps [5,9,13,17] unrolled. -/
def fingersUp (lm : HandPose) : List ℕ :=
  [if isFingerExtended (lm 8) (lm 6) (lm 5) 0.7 then 1 else 0,
   if isFingerExtended (lm 12) (lm 10) (lm 9) 0.7 then 1 else 0,
   if isFingerExtended (lm 16) (lm 14) (lm 13) 0.7 then 1 else 0,
   if isFingerExtended (lm 20) (lm 18) (lm 17) 0.7 then 1 else 0]

/-- isFistClosedCheck: the sum of the four finger states is zero, i.e. every
tracked finger is folded. -/
def isFistClosedCheck (lm : HandPose) : Prop :=
  (fingersUp lm).foldl (· + ·) 0 = 0

/-- detectDirection: the angle of the wrist-to-indexTip vector (dx mirrored,
dy inverted, exactly as in the code: dx = wrist.x - indexTip.x and
dy = wrist.y - indexTip.y) fed into the four-range classifier. -/
def detectDirection (lm : HandPose) : Gesture :=
  directionFromAngle (degOf (atan2 ((lm 0).y - (lm 8).y) ((lm 0).x - (lm 8).x)))

/-- detectGesture: the priority chain of the classifier; the string pattern
tests on states.join are modelled by list equality. -/
def detectGesture (lm : HandPose) : Gesture :=
  if fingersUp lm = [1, 1, 1, 1] then .zoomOut
  else if distance (lm 4) (lm 8) < 0.05 then .zoomIn
  else if fingersUp lm = [1, 0, 0, 0] then detectDirection lm
  else .unknown

/-- The normalized palm-plane normal: normalize3D of the cross product of
(indexMCP - wrist) and (pinkyMCP - wrist). -/
def palmNormal (lm : HandPose) : ℝ × ℝ × ℝ :=
  normalize3D (crossProduct
    ((lm 5).x - (lm 0).x, (lm 5).y - (lm 0).y, (lm 5).z - (lm 0).z)
    ((lm 17).x - (lm 0).x, (lm 17).y - (lm 0).y, (lm 17).z - (lm 0).z))

/-- The normalized palm cross vector (indexMCP - pinkyMCP) of the three-axis
detector variant. -/
def palmCrossVec (lm : HandPose) : ℝ × ℝ × ℝ :=
  normalize3D ((lm 5).x - (lm 17).x, (lm 5).y - (lm 17).y, (lm 5).z - (lm 17).z)

/-- The normalized forward vector wrist to middle fingertip of the three-axis
detector variant. -/
def forwardTip (lm : HandPose) : ℝ × ℝ × ℝ :=
  normalize3D ((lm 12).x - (lm 0).x, (lm 12).y - (lm 0).y, (lm 12).z - (lm 0).z)

/-- The normalized forward vector wrist to middle MCP of the two-axis
detector variant. -/
def forwardMcp (lm : HandPose) : ℝ × ℝ × ℝ :=
  normalize3D ((lm 9).x - (lm 0).x, (lm 9).y - (lm 0).y, (lm 9).z - (lm 0).z)

/-- getHandOrientation of the three-axis detector variant, as the triple
(pitch, yaw, roll): pitch = atan2 of the forward-tip vector y component over
the horizontal magnitude, in degrees, amplified by 1.5; yaw = atan2 of the
palm normal x and negated z components, in degrees; roll = atan2 of the palm
cross vector y and x components, in degrees, with no offset and no
normalization. -/
def getHandOrientationPYR (lm : HandPose) : ℝ × ℝ × ℝ :=
  (degOf (atan2 (forwardTip lm).2.1
      (Real.sqrt ((forwardTip lm).1 ^ 2 + (forwardTip lm).2.2 ^ 2))) * 1.5,
   degOf (atan2 (palmNormal lm).1 (-(palmNormal lm).2.2)),
   degOf (atan2 (palmCrossVec lm).2.1 (palmCrossVec lm).1))

/-- getHandOrientation of the two-axis detector variant, as the pair
(yaw, roll): yaw = atan2 of the palm normal x and z components, in degrees;
roll = atan2 of the forward vector wrist to middle MCP, in degrees, plus a
fixed 100-degree offset, then normalized by normalizeAngle. -/
def getHandOrientationYR (lm : HandPose) : ℝ × ℝ :=
  (degOf (atan2 (palmNormal lm).1 (palmNormal lm).2.2),
   normalizeAngle (degOf (atan2 (forwardMcp lm).2.1 (forwardMcp lm).1) + 100))

end

/-! ## Claim theorems: gesture classifier (C8, C10) -/

/-- C8: whenever all four tracked fingers are extended the classifier returns
ZoomOut regardless of the pinch distance, and whenever the pinch distance is
below 0.05 with not all four fingers extended it returns ZoomIn. -/
theorem c8_classifier_zoom (lm : HandPose) :
    (fingersUp lm = [1, 1, 1, 1] → detectGesture lm = .zoomOut) ∧
    (distance (lm 4) (lm 8) < 0.05 → fingersUp lm ≠ [1, 1, 1, 1] →
      detectGesture lm = .zoomIn) := by
  constructor
  · intro h
    unfold detectGesture
    rw [if_pos h]
  · intro hd hne
    unfold detectGesture
    rw [if_neg hne, if_pos hd]

/-- C10: for a closed fist (all four finger states folded) the classifier
returns ZoomIn below the pinch threshold and Unknown otherwise; the
all-extended and only-index-extended patterns are unsatisfiable, so ZoomOut
and the directional gestures are never produced. -/
theorem c10_fist_classifier (lm : HandPose) (hfist : isFistClosedCheck lm) :
    (distance (lm 4) (lm 8) < 0.05 → detectGesture lm = .zoomIn) ∧
    (¬ distance (lm 4) (lm 8) < 0.05 → detectGesture lm = .unknown) := by
  unfold isFistClosedCheck fingersUp at hfist
  simp only [List.foldl] at hfist
  have hne1111 : fingersUp lm ≠ [1, 1, 1, 1] := by
    intro h
    unfold fingersUp at h
    simp only [List.cons.injEq, and_true] at h
    omega
  have hne1000 : fingersUp lm ≠ [1, 0, 0, 0] := by
    intro h
    unfold fingersUp at h
    simp only [List.cons.injEq, and_true] at h
    omega
  constructor
  · intro hd
    unfold detectGesture
    rw [if_neg hne1111, if_pos hd]
  · intro hnd
    unfold detectGesture
    rw [if_neg hne1111, if_neg hnd, if_neg hne1000]

/-! ## Concrete poses for the classifier witnesses -/

noncomputable section

/-- A pose with all four tracked fingers straight (each MCP-PIP-TIP chain is
a straight vertical segment). -/
def posePalm : HandPose := fun i =>
  match i.val with
  | 4 => ⟨0.9, 0.9, 0⟩
  | 5 => ⟨0.2, 0.5, 0⟩
  | 6 => ⟨0.2, 0.4, 0⟩
  | 8 => ⟨0.2, 0.3, 0⟩
  | 9 => ⟨0.4, 0.5, 0⟩
  | 10 => ⟨0.4, 0.4, 0⟩
  | 12 => ⟨0.4, 0.3, 0⟩
  | 13 => ⟨0.6, 0.5, 0⟩
  | 14 => ⟨0.6, 0.4, 0⟩
  | 16 => ⟨0.6, 0.3, 0⟩
  | 17 => ⟨0.8, 0.5, 0⟩
  | 18 => ⟨0.8, 0.4, 0⟩
  | 20 => ⟨0.8, 0.3, 0⟩
  | _ => ⟨0, 0, 0⟩

/-- A pose with the thumb tip on the index tip (pinch) and the middle finger
folded back on itself. -/
def posePinch : HandPose := fun i =>
  match i.val with
  | 4 => ⟨0.2, 0.3, 0⟩
  | 5 => ⟨0.2, 0.5, 0⟩
  | 6 => ⟨0.2, 0.4, 0⟩
  | 8 => ⟨0.2, 0.3, 0⟩
  | 9 => ⟨0.4, 0.5, 0⟩
  | 10 => ⟨0.4, 0.4, 0⟩
  | 12 => ⟨0.4, 0.5, 0⟩
  | _ => ⟨0, 0, 0⟩

/-- A pose with all four tracked fingers folded back on themselves and the
thumb far from the index tip. -/
def poseFist : HandPose := fun i =>
  match i.val with
  | 4 => ⟨0.9, 0.9, 0⟩
  | 5 => ⟨0.2, 0.5, 0⟩
  | 6 => ⟨0.2, 0.4, 0⟩
  | 8 => ⟨0.2, 0.5, 0⟩
  | 9 => ⟨0.4, 0.5, 0⟩
  | 10 => ⟨0.4, 0.4, 0⟩
  | 12 => ⟨0.4, 0.5, 0⟩
  | 13 => ⟨0.6, 0.5, 0⟩
  | 14 => ⟨0.6, 0.4, 0⟩
  | 16 => ⟨0.6, 0.5, 0⟩
  | 17 => ⟨0.8, 0.5, 0⟩
  | 18 => ⟨0.8, 0.4, 0⟩
  | 20 => ⟨0.8, 0.5, 0⟩
  | _ => ⟨0, 0, 0⟩

end

lemma isFingerExtended_vertical (x ymcp ypip ytip : ℝ)
    (h1 : ypip - ymcp = -0.1) (h2 : ytip - ypip = -0.1) :
    isFingerExtended ⟨x, ytip, 0⟩ ⟨x, ypip, 0⟩ ⟨x, ymcp, 0⟩ 0.7 := by
  unfold isFingerExtended
  dsimp only
  rw [sub_self, h1, h2]
  rw [show (0 : ℝ) * 0 + -0.1 * -0.1 = 0.01 from by norm_num]
  rw [show (0 : ℝ) ^ 2 + (-0.1 : ℝ) ^ 2 = 0.01 from by norm_num]
  rw [Real.mul_self_sqrt (by norm_num : (0 : ℝ) ≤ 0.01)]
  norm_num

lemma isFingerExtended_folded (x ymcp ypip ytip : ℝ)
    (h1 : ypip - ymcp = -0.1) (h2 : ytip - ypip = 0.1) :
    ¬ isFingerExtended ⟨x, ytip, 0⟩ ⟨x, ypip, 0⟩ ⟨x, ymcp, 0⟩ 0.7 := by
  unfold isFingerExtended
  dsimp only
  rw [sub_self, h1, h2]
  rw [show (0 : ℝ) * 0 + -0.1 * 0.1 = -0.01 from by norm_num]
  rw [show (0 : ℝ) ^ 2 + (-0.1 : ℝ) ^ 2 = 0.01 from by norm_num]
  rw [show (0 : ℝ) ^ 2 + (0.1 : ℝ) ^ 2 = 0.01 from by norm_num]
  rw [Real.mul_self_sqrt (by norm_num : (0 : ℝ) ≤ 0.01)]
  intro hgt
  norm_num at hgt

lemma fingersUp_posePalm : fingersUp posePalm = [1, 1, 1, 1] := by
  have h1 : isFingerExtended (posePalm 8) (posePalm 6) (posePalm 5) 0.7 :=
    isFingerExtended_vertical 0.2 0.5 0.4 0.3 (by norm_num) (by norm_num)
  have h2 : isFingerExtended (posePalm 12) (posePalm 10) (posePalm 9) 0.7 :=
    isFingerExtended_vertical 0.4 0.5 0.4 0.3 (by norm_num) (by norm_num)
  have h3 : isFingerExtended (posePalm 16) (posePalm 14) (posePalm 13) 0.7 :=
    isFingerExtended_vertical 0.6 0.5 0.4 0.3 (by norm_num) (by norm_num)
  have h4 : isFingerExtended (posePalm 20) (posePalm 18) (posePalm 17) 0.7 :=
    isFingerExtended_vertical 0.8 0.5 0.4 0.3 (by norm_num) (by norm_num)
  unfold fingersUp
  rw [if_pos h1, if_pos h2, if_pos h3, if_pos h4]

lemma fingersUp_posePinch_ne : fingersUp posePinch ≠ [1, 1, 1, 1] := by
  have h2 : ¬ isFingerExtended (posePinch 12) (posePinch 10) (posePinch 9) 0.7 :=
    isFingerExtended_folded 0.4 0.5 0.4 0.5 (by norm_num) (by norm_num)
  intro h
  unfold fingersUp at h
  rw [if_neg h2] at h
  simp at h

lemma distance_posePinch : distance (posePinch 4) (posePinch 8) < 0.05 := by
  show distance ⟨0.2, 0.3, 0⟩ ⟨0.2, 0.3, 0⟩ < 0.05
  unfold distance
  dsimp only
  rw [sub_self, sub_self]
  rw [show (0 : ℝ) ^ 2 + (0 : ℝ) ^ 2 = 0 from by norm_num, Real.sqrt_zero]
  norm_num

/-- C8 witness: a concrete all-extended pose classifies as ZoomOut and a
concrete pinching pose with a folded middle finger classifies as ZoomIn. -/
theorem c8_classifier_zoom_witness :
    detectGesture posePalm = .zoomOut ∧ detectGesture posePinch = .zoomIn :=
  ⟨(c8_classifier_zoom posePalm).1 fingersUp_posePalm,
   (c8_classifier_zoom posePinch).2 distance_posePinch fingersUp_posePinch_ne⟩

lemma isFistClosedCheck_poseFist : isFistClosedCheck poseFist := by
  have h1 : ¬ isFingerExtended (poseFist 8) (poseFist 6) (poseFist 5) 0.7 :=
    isFingerExtended_folded 0.2 0.5 0.4 0.5 (by norm_num) (by norm_num)
  have h2 : ¬ isFingerExtended (poseFist 12) (poseFist 10) (poseFist 9) 0.7 :=
    isFingerExtended_folded 0.4 0.5 0.4 0.5 (by norm_num) (by norm_num)
  have h3 : ¬ isFingerExtended (poseFist 16) (poseFist 14) (poseFist 13) 0.7 :=
    isFingerExtended_folded 0.6 0.5 0.4 0.5 (by norm_num) (by norm_num)
  have h4 : ¬ isFingerExtended (poseFist 20) (poseFist 18) (poseFist 17) 0.7 :=
    isFingerExtended_folded 0.8 0.5 0.4 0.5 (by norm_num) (by norm_num)
  unfold isFistClosedCheck fingersUp
  rw [if_neg h1, if_neg h2, if_neg h3, if_neg h4]
  rfl

lemma distance_poseFist_far : ¬ distance (poseFist 4) (poseFist 8) < 0.05 := by
  show ¬ distance ⟨0.9, 0.9, 0⟩ ⟨0.2, 0.5, 0⟩ < 0.05
  unfold distance
  dsimp only
  rw [show ((0.9 : ℝ) - 0.2) ^ 2 + ((0.9 : ℝ) - 0.5) ^ 2 = 0.65 from by norm_num]
  intro hlt
  have h1 : Real.sqrt 0.65 ^ 2 < 0.05 ^ 2 := by
    have h0 := Real.sqrt_nonneg (0.65 : ℝ)
    nlinarith
  rw [Real.sq_sqrt (by norm_num : (0 : ℝ) ≤ 0.65)] at h1
  norm_num at h1

/-- C10 witness: a concrete closed-fist pose with the thumb far from the
index tip classifies as Unknown. -/
theorem c10_fist_classifier_witness : detectGesture poseFist = .unknown :=
  (c10_fist_classifier poseFist isFistClosedCheck_poseFist).2 distance_poseFist_far

/-! ## Facts about atan2 and the orientation estimator (C7) -/

lemma atan2_div_of_pos (y x c : ℝ) (hc : 0 < c) :
    atan2 (y / c) (x / c) = atan2 y x := by
  have hc' : c ≠ 0 := ne_of_gt hc
  have hdiv : y / c / (x / c) = y / x := by
    rcases eq_or_ne x 0 with rfl | hx
    · rw [zero_div, div_zero, div_zero]
    · field_simp
  have hpos : (0 < x / c) = (0 < x) := propext ⟨fun h => by
      have h2 := mul_pos h hc
      rwa [div_mul_cancel₀ x hc'] at h2,
    fun h => div_pos h hc⟩
  have hneg : (x / c < 0) = (x < 0) := propext ⟨fun h => by
      have h2 := mul_neg_of_neg_of_pos h hc
      rwa [div_mul_cancel₀ x hc'] at h2,
    fun h => div_neg_of_neg_of_pos h hc⟩
  have hynn : (0 ≤ y / c) = (0 ≤ y) := propext ⟨fun h => by
      have h2 := mul_nonneg h hc.le
      rwa [div_mul_cancel₀ y hc'] at h2,
    fun h => div_nonneg h hc.le⟩
  have hyneg : (y / c < 0) = (y < 0) := propext ⟨fun h => by
      have h2 := mul_neg_of_neg_of_pos h hc
      rwa [div_mul_cancel₀ y hc'] at h2,
    fun h => div_neg_of_neg_of_pos h hc⟩
  have hxeq : (x / c = 0) = (x = 0) := propext ⟨fun h => by
      rcases div_eq_zero_iff.mp h with h | h
      · exact h
      · exact absurd h hc',
    fun h => by rw [h, zero_div]⟩
  have hypos : (0 < y / c) = (0 < y) := propext ⟨fun h => by
      have h2 := mul_pos h hc
      rwa [div_mul_cancel₀ y hc'] at h2,
    fun h => div_pos h hc⟩
  unfold atan2
  rw [hdiv]
  simp only [hpos, hneg, hynn, hyneg, hxeq, hypos]

lemma atan2_zero_of_pos (t : ℝ) (ht : 0 < t) : atan2 0 t = 0 := by
  unfold atan2
  rw [if_pos ht, zero_div, Real.arctan_zero]

lemma atan2_pos_of_zero (t : ℝ) (ht : 0 < t) : atan2 t 0 = Real.pi / 2 := by
  unfold atan2
  rw [if_neg (lt_irrefl (0 : ℝ)), if_neg (fun hh => lt_irrefl (0 : ℝ) hh.1),
    if_neg (fun hh => lt_irrefl (0 : ℝ) hh.1), if_pos ⟨rfl, ht⟩]

lemma degOf_zero : degOf 0 = 0 := by
  unfold degOf
  rw [zero_mul, zero_div]

lemma degOf_pi_div_two : degOf (Real.pi / 2) = 90 := by
  unfold degOf
  have hπ := Real.pi_ne_zero
  field_simp
  ring

/-- The epsilon-normalization does not change the angle read by atan2 on the
y and x components. -/
lemma normalize3D_angle_xy (v : ℝ × ℝ × ℝ) :
    atan2 (normalize3D v).2.1 (normalize3D v).1 = atan2 v.2.1 v.1 := by
  have hd : 0 < Real.sqrt (v.1 ^ 2 + v.2.1 ^ 2 + v.2.2 ^ 2) + 1e-6 := by
    positivity
  have h1 : (normalize3D v).2.1 =
      v.2.1 / (Real.sqrt (v.1 ^ 2 + v.2.1 ^ 2 + v.2.2 ^ 2) + 1e-6) := rfl
  have h2 : (normalize3D v).1 =
      v.1 / (Real.sqrt (v.1 ^ 2 + v.2.1 ^ 2 + v.2.2 ^ 2) + 1e-6) := rfl
  rw [h1, h2, atan2_div_of_pos _ _ _ hd]

/-- The epsilon-normalization does not change the angle read by atan2 on the
x and negated z components. -/
lemma normalize3D_angle_x_negz (v : ℝ × ℝ × ℝ) :
    atan2 (normalize3D v).1 (-(normalize3D v).2.2) = atan2 v.1 (-v.2.2) := by
  have hd : 0 < Real.sqrt (v.1 ^ 2 + v.2.1 ^ 2 + v.2.2 ^ 2) + 1e-6 := by
    positivity
  have h1 : (normalize3D v).1 =
      v.1 / (Real.sqrt (v.1 ^ 2 + v.2.1 ^ 2 + v.2.2 ^ 2) + 1e-6) := rfl
  have h2 : -(normalize3D v).2.2 =
      -v.2.2 / (Real.sqrt (v.1 ^ 2 + v.2.1 ^ 2 + v.2.2 ^ 2) + 1e-6) := by
    show -(v.2.2 / _) = _
    rw [neg_div]
  rw [h1, h2, atan2_div_of_pos _ _ _ hd]

lemma normalizeAngle_190 : normalizeAngle (190 : ℝ) = -170 := by
  unfold normalizeAngle jsMod jsTrunc
  rw [if_pos (show (0 : ℝ) ≤ (190 + 180) / 360 from by norm_num)]
  rw [show ((190 : ℝ) + 180) / 360 = 37 / 36 from by norm_num]
  rw [show ⌊(37 / 36 : ℝ)⌋ = 1 from by
    rw [Int.floor_eq_iff]
    constructor <;> norm_num]
  push_cast
  norm_num

lemma normalizeAngle_100 : normalizeAngle (100 : ℝ) = 100 := by
  unfold normalizeAngle jsMod jsTrunc
  rw [if_pos (show (0 : ℝ) ≤ (100 + 180) / 360 from by norm_num)]
  rw [show ((100 : ℝ) + 180) / 360 = 7 / 9 from by norm_num]
  rw [show ⌊(7 / 9 : ℝ)⌋ = 0 from by
    rw [Int.floor_eq_iff]
    constructor <;> norm_num]
  push_cast
  norm_num

noncomputable section

/-- The counterexample pose for the orientation claim: wrist at (0.5, 0.5),
index MCP at (0.6, 0.5), middle MCP at (0.5, 0.7), middle tip at (0.5, 0.2),
pinky MCP at (0.4, 0.5), all with zero depth. -/
def cpose : HandPose := fun i =>
  match i.val with
  | 0 => ⟨0.5, 0.5, 0⟩
  | 5 => ⟨0.6, 0.5, 0⟩
  | 9 => ⟨0.5, 0.7, 0⟩
  | 12 => ⟨0.5, 0.2, 0⟩
  | 17 => ⟨0.4, 0.5, 0⟩
  | _ => ⟨0, 0, 0⟩

end

/-- C7 counterexample: at the pose cpose the index-to-pinky cross vector has
angle atan2(0, 0.2) = 0 degrees, so the roll value the claim specifies (that
angle plus the 100-degree offset, normalized) is 100; but the three-axis
estimator returns roll 0 (it adds no offset and does not normalize), and the
two-axis estimator returns roll -170 (its roll derives from the wrist to
middle-MCP vector, not the index-to-pinky cross vector).  Both variants
therefore contradict the claimed roll formula. -/
theorem c7_orientation_counterexample :
    (getHandOrientationPYR cpose).2.2 = 0 ∧
    (getHandOrientationYR cpose).2 = -170 ∧
    normalizeAngle
      (degOf (atan2 ((cpose 5).y - (cpose 17).y) ((cpose 5).x - (cpose 17).x))
        + 100) = 100 ∧
    (0 : ℝ) ≠ 100 ∧ (-170 : ℝ) ≠ 100 := by
  have hy : (cpose 5).y - (cpose 17).y = 0 := by
    show (0.5 : ℝ) - 0.5 = 0
    norm_num
  have hx : (cpose 5).x - (cpose 17).x = 0.2 := by
    show (0.6 : ℝ) - 0.4 = 0.2
    norm_num
  have hbase : atan2 ((cpose 5).y - (cpose 17).y) ((cpose 5).x - (cpose 17).x) = 0 := by
    rw [hy, hx]
    exact atan2_zero_of_pos 0.2 (by norm_num)
  refine ⟨?_, ?_, ?_, by norm_num, by norm_num⟩
  · show degOf (atan2 (palmCrossVec cpose).2.1 (palmCrossVec cpose).1) = 0
    rw [show palmCrossVec cpose = normalize3D
        ((cpose 5).x - (cpose 17).x, (cpose 5).y - (cpose 17).y,
          (cpose 5).z - (cpose 17).z) from rfl,
      normalize3D_angle_xy]
    have h1 : ((cpose 5).x - (cpose 17).x, (cpose 5).y - (cpose 17).y,
        (cpose 5).z - (cpose 17).z).2.1 = 0 := hy
    have h2 : ((cpose 5).x - (cpose 17).x, (cpose 5).y - (cpose 17).y,
        (cpose 5).z - (cpose 17).z).1 = 0.2 := hx
    rw [h1, h2, atan2_zero_of_pos 0.2 (by norm_num), degOf_zero]
  · show normalizeAngle
        (degOf (atan2 (forwardMcp cpose).2.1 (forwardMcp cpose).1) + 100) = -170
    rw [show forwardMcp cpose = normalize3D
        ((cpose 9).x - (cpose 0).x, (cpose 9).y - (cpose 0).y,
          (cpose 9).z - (cpose 0).z) from rfl,
      normalize3D_angle_xy]
    have h3 : ((cpose 9).x - (cpose 0).x, (cpose 9).y - (cpose 0).y,
        (cpose 9).z - (cpose 0).z).2.1 = 0.2 := by
      show (0.7 : ℝ) - 0.5 = 0.2
      norm_num
    have h4 : ((cpose 9).x - (cpose 0).x, (cpose 9).y - (cpose 0).y,
        (cpose 9).z - (cpose 0).z).1 = 0 := by
      show (0.5 : ℝ) - 0.5 = 0
      norm_num
    rw [h3, h4, atan2_pos_of_zero 0.2 (by norm_num), degOf_pi_div_two]
    rw [show (90 : ℝ) + 100 = 190 from by norm_num]
    exact normalizeAngle_190
  · rw [hbase, degOf_zero, zero_add]
    exact normalizeAngle_100

/-- C7 (amended): in the three-axis estimator the returned yaw is the degree
angle atan2(normal.x, -normal.z) of the (unnormalized) palm-plane normal --
the epsilon-normalization does not affect the angle, but the z component is
negated rather than used directly -- and the returned roll is the raw degree
angle atan2 of the index-MCP to pinky-MCP cross vector y and x components,
with no 100-degree offset and no normalization.  (The offset-and-normalize
step exists only in the two-axis variant, whose roll is computed from the
wrist to middle-MCP forward vector instead of the index-to-pinky cross
vector.) -/
theorem c7_orientation_amended (lm : HandPose) :
    (getHandOrientationPYR lm).2.1 =
      degOf (atan2
        (crossProduct
          ((lm 5).x - (lm 0).x, (lm 5).y - (lm 0).y, (lm 5).z - (lm 0).z)
          ((lm 17).x - (lm 0).x, (lm 17).y - (lm 0).y, (lm 17).z - (lm 0).z)).1
        (-(crossProduct
          ((lm 5).x - (lm 0).x, (lm 5).y - (lm 0).y, (lm 5).z - (lm 0).z)
          ((lm 17).x - (lm 0).x, (lm 17).y - (lm 0).y, (lm 17).z - (lm 0).z)).2.2)) ∧
    (getHandOrientationPYR lm).2.2 =
      degOf (atan2 ((lm 5).y - (lm 17).y) ((lm 5).x - (lm 17).x)) := by
  constructor
  · show degOf (atan2 (palmNormal lm).1 (-(palmNormal lm).2.2)) = _
    rw [show palmNormal lm = normalize3D (crossProduct
        ((lm 5).x - (lm 0).x, (lm 5).y - (lm 0).y, (lm 5).z - (lm 0).z)
        ((lm 17).x - (lm 0).x, (lm 17).y - (lm 0).y, (lm 17).z - (lm 0).z))
        from rfl,
      normalize3D_angle_x_negz]
  · show degOf (atan2 (palmCrossVec lm).2.1 (palmCrossVec lm).1) = _
    rw [show palmCrossVec lm = normalize3D
        ((lm 5).x - (lm 17).x, (lm 5).y - (lm 17).y, (lm 5).z - (lm 17).z)
        from rfl,
      normalize3D_angle_xy]

end VibeCAD